import Mathlib

/-!
Shallow embedding of the type-directed instruction-selection and
literal-materialization engine of `corepy/arch/ppc/types/ppc_types.py`
(together with the framebuffer demo's `FBDraw.synthesize` routine from
`examples/fbdemo.py`), with theorems settling the specification claims
about the engine.

Python values and control flow are embedded as follows: Python functions
that can raise become Lean functions into `Except PyError _`; the mutable
instruction-stream / register-allocator state becomes an explicit
`CodeState` value threaded through the literal-materialization routines;
Python arbitrary-precision integers become `Int` with the bitwise
operations spelled out as modular arithmetic; Python floats appearing only
as opaque stored data become `Rat` carriers.
-/

namespace Corepy

/-- The operator/type mix-in classes defined in `ppc_types.py`.
`UnsignedWordType` and `SignedWordType` subclass `BitType`; the two float
type classes are unrelated to the integer hierarchy (their common base
`PPCType` is not itself a registered value kind). -/
inductive TypeCls where
  | BitType
  | UnsignedWordType
  | SignedWordType
  | SingleFloatType
  | DoubleFloatType
deriving DecidableEq, Repr

/-- Immediate superclass among the registered type classes. -/
def parentOf : TypeCls → Option TypeCls
  | .UnsignedWordType => some .BitType
  | .SignedWordType => some .BitType
  | _ => none

/-- Python `issubclass` restricted to the registered type classes (the
hierarchy has depth one above `BitType`, so one parent step suffices). -/
def issubclassTC (a b : TypeCls) : Bool :=
  a == b || parentOf a == some b

/-- Role of a runtime value object: an instance of the `spe.Variable`
subclass or of the `spe.Expression` subclass that `make_user_type` builds
for its kind. -/
inductive Role where
  | var
  | expr
deriving DecidableEq, Repr

/-- Python runtime class of an operand, as far as the operator code in
`ppc_types.py` inspects it. -/
inductive PyClassRef where
  | varCls (k : TypeCls)
  | exprCls (k : TypeCls)
  | intCls
  | immCls
  | floatCls
deriving DecidableEq, Repr

/-- Operand values flowing through the operator methods: typed values
(Variables/Expressions of a registered kind), host ints/longs,
`spe.Immediate` wrappers, and host floats. -/
inductive Operand where
  | typed (k : TypeCls) (r : Role)
  | intLit (n : Int)
  | imm (n : Int)
  | floatLit (q : Rat)
deriving DecidableEq, Repr

/-- Python `type(x)` as the operator code observes it. -/
def clsOf : Operand → PyClassRef
  | .typed k .var => .varCls k
  | .typed k .expr => .exprCls k
  | .intLit _ => .intCls
  | .imm _ => .immCls
  | .floatLit _ => .floatCls

/-- Python `hasattr(x, 'type_cls')`: only instances of the classes built by
`make_user_type` carry a `type_cls` attribute. -/
def hasTypeCls : Operand → Bool
  | .typed _ _ => true
  | _ => false

/-- The `type_cls` attribute of an operand, when present. -/
def typeClsOf : Operand → Option TypeCls
  | .typed k _ => some k
  | _ => none

/-- Python exceptions raised by the embedded code.
`typeErrorRaiseNonException` models Python 2's behaviour of
`raise NotImplemented`: `NotImplemented` is not an exception class, so the
interpreter raises a `TypeError` carrying no operator or operand names. -/
inductive PyError where
  | exception (msg : String)
  | attributeError (msg : String)
  | indexError
  | typeErrorRaiseNonException
deriving DecidableEq, Repr

/-- Embedding of `_most_specific(a, b, default = None)` (`ppc_types.py`
lines 46-64).  The source's guard is `hasattr(a, 'type_cls') and
hasattr(a, 'type_cls')`, testing `a` twice; this embedding reproduces that
faithfully.  Consequently, whenever `a` has a `type_cls`, the body
evaluates `b.type_cls`, which raises `AttributeError` when `b` has none. -/
def _most_specific (a b : Operand) (default : Option PyClassRef) :
    Except PyError (Option PyClassRef) :=
  if hasTypeCls a && hasTypeCls a then
    match typeClsOf b, typeClsOf a with
    | some bk, some ak =>
      if issubclassTC bk ak then .ok (some (clsOf b))
      else if issubclassTC ak bk then .ok (some (clsOf a))
      else .ok default
    | none, _ => .error (.attributeError "type_cls")
    | some _, none => .error (.attributeError "type_cls")
  else if default = none then
    if hasTypeCls a then .ok (some (clsOf a))
    else if hasTypeCls b then .ok (some (clsOf b))
    else .ok default
  else .ok default

/-- C1: code-bug evidence, evaluating the resolver at the failing input.
With operand `a` declaring a kind (a `SignedWord` variable), operand `b` a
host int with no `type_cls`, and `default` unset, the claim — and the
function's own docstring ("If default is None, return type(a), or type(b)
if a does not have a type_cls") — say the resolver returns a's kind.  The
source's duplicated `hasattr(a, 'type_cls')` guard instead sends execution
into the both-operands-declare branch, where evaluating `b.type_cls`
raises `AttributeError`. -/
theorem C1_most_specific_raises_on_missing_b_kind :
    _most_specific (.typed .SignedWordType .var) (.intLit 5) none
      = .error (.attributeError "type_cls") := rfl

/-- Machine instructions emitted by the literal-materialization protocol. -/
inductive Instr where
  | addi (rd ra : Nat) (simm : Int)
  | addis (rd ra : Nat) (simm : Int)
  | lfs (frd ra : Nat) (d : Int)
  | lfd (frd ra : Nat) (d : Int)
deriving DecidableEq, Repr

/-- Python `v & 0xFFFF` on an arbitrary-precision int: the nonnegative
residue of `v` modulo 2^16. -/
def pyAnd16 (v : Int) : Int := v.emod 65536

/-- Python `v >> 16` on an arbitrary-precision int: arithmetic (floor)
shift, i.e. floor division by 2^16. -/
def pyShr16 (v : Int) : Int := v.fdiv 65536

/-- Embedding of `BitType._set_literal_value(self, value)` (`ppc_types.py`
lines 124-133), serving all three integer kinds.  It always adds
`addi(self.reg, 0, value)`, and when `(value & 0xFFFF) != value` also adds
`addis(self.reg, self.reg, (value + 32768) >> 16)`. -/
def BitType.set_literal_value (reg : Nat) (value : Int) : List Instr :=
  [Instr.addi reg 0 value] ++
    (if pyAnd16 value == value then []
     else [Instr.addis reg reg (pyShr16 (value + 32768))])

/-- Recognizer for the "load low 16 bits as signed immediate" instruction
into register `reg`: an `addi` with destination `reg` and base operand 0. -/
def isLoadLow (reg : Nat) : Instr → Bool
  | .addi rd ra _ => rd == reg && ra == 0
  | _ => false

/-- Recognizer for the "add high 16 bits, shifted" instruction. -/
def isAddHigh : Instr → Bool
  | .addis _ _ _ => true
  | _ => false

/-- C2: confirmed.  For every destination register and integer literal `L`,
the emitted sequence starts with exactly one load-low-16-bits-as-signed-
immediate (`addi reg, 0, L`); an add-high-16-bits-shifted (`addis`)
instruction is present if and only if `L`'s low 16 bits differ from `L`,
and the `addis` emitted in that case is exactly
`addis reg, reg, (L + 32768) >> 16`, the reference rounding expression. -/
theorem C2_integer_literal_split (reg : Nat) (L : Int) :
    (BitType.set_literal_value reg L).countP (isLoadLow reg) = 1
    ∧ (BitType.set_literal_value reg L).head? = some (Instr.addi reg 0 L)
    ∧ (BitType.set_literal_value reg L).any isAddHigh = !(pyAnd16 L == L)
    ∧ (BitType.set_literal_value reg L).filter isAddHigh
        = (if pyAnd16 L == L then []
           else [Instr.addis reg reg (pyShr16 (L + 32768))]) := by
  by_cases h : pyAnd16 L == L <;>
    simp [BitType.set_literal_value, isLoadLow, isAddHigh, h,
      List.countP_cons, List.countP_nil]

/-- Instruction templates supplied by the external `corepy.arch.ppc.isa`
encoder; the operator algebra only selects which named template to use. -/
inductive InstrTmpl where
  | andx | andi | orx | ori | xorx | xori | slwx | srwx
  | addx | addi | divwux | divwx | mullwx | mulli | negx | subfx
  | faddsx | faddx | fsubsx | fsubx | fmulsx | fmulx | fdivsx | fdivx
  | fabsx | fnegx
  | fmaddsx | fmaddx | fmsubsx | fmsubx | fnmaddsx | fnmaddx | fnmsubsx | fnmsubx
  | fsqrtsx | fsqrtx
deriving DecidableEq, Repr

/-- A ComputedValue (Expression) node as returned by the operator methods:
the selected instruction template, the operand list in the order passed,
and the result class.  The factory form `inst.ex(..., type_cls = X)`
yields `type_cls = X` (possibly `none`, since the resolver may return
`None`); direct construction `self.expr_cls(inst, ops...)` yields
`type_cls = some (.exprCls k)` for the caller's kind `k`. -/
structure ExprVal where
  inst : InstrTmpl
  operands : List Operand
  type_cls : Option PyClassRef
deriving DecidableEq, Repr

/-- Attribute access `x.var_cls`: present on every instance of the classes
built by `make_user_type` (both Variable and Expression instances inherit
it from the type class), absent on host literals. -/
def var_clsAttr : Operand → Except PyError PyClassRef
  | .typed k _ => .ok (.varCls k)
  | _ => .error (.attributeError "var_cls")

/-- Attribute access `x.expr_cls`. -/
def expr_clsAttr : Operand → Except PyError PyClassRef
  | .typed k _ => .ok (.exprCls k)
  | _ => .error (.attributeError "expr_cls")

/-- Python `isinstance(x, C)` for a registered type class `C`. -/
def isinstanceTC (x : Operand) (c : TypeCls) : Bool :=
  match x with
  | .typed k _ => issubclassTC k c
  | _ => false

/-- Python `isinstance(x, _int_literals)` with
`_int_literals = (spe.Immediate, int, long)`. -/
def isIntLiteral : Operand → Bool
  | .intLit _ => true
  | .imm _ => true
  | _ => false

/-- User-facing names of the Variable classes, from `_user_types`. -/
def userName : TypeCls → String
  | .BitType => "Bits"
  | .UnsignedWordType => "UnsignedWord"
  | .SignedWordType => "SignedWord"
  | .SingleFloatType => "SingleFloat"
  | .DoubleFloatType => "DoubleFloat"

/-- Rendering of `str(type(x))` as interpolated into the source's error
messages via `'%s' % type(x)`. -/
def typeRepr : Operand → String
  | .typed k .var => "<class '" ++ userName k ++ "'>"
  | .typed k .expr => "<class '" ++ userName k ++ "Ex'>"
  | .intLit _ => "<type 'int'>"
  | .imm _ => "<class 'Immediate'>"
  | .floatLit _ => "<type 'float'>"

/-- Embedding of `BitType._upcast(self, other, inst)`: forwards to the
instruction template's factory form with
`type_cls = _most_specific(self, other)` (default unset). -/
def BitType.upcast (self other : Operand) (inst : InstrTmpl) :
    Except PyError ExprVal := do
  let t ← _most_specific self other none
  pure ⟨inst, [self, other], t⟩

/-- Embedding of `BitType.__and__`. -/
def BitType.and_op (self other : Operand) : Except PyError ExprVal :=
  if isinstanceTC other .BitType then BitType.upcast self other .andx
  else if isIntLiteral other then do
    let vc ← var_clsAttr self
    pure ⟨.andi, [self, other], some vc⟩
  else .error (.exception
    ("__and__ not implemented for " ++ typeRepr self ++ " and " ++ typeRepr other))

/-- Embedding of `BitType.__or__`. -/
def BitType.or_op (self other : Operand) : Except PyError ExprVal :=
  if isinstanceTC other .BitType then BitType.upcast self other .orx
  else if isIntLiteral other then do
    let vc ← var_clsAttr self
    pure ⟨.ori, [self, other], some vc⟩
  else .error (.exception
    ("__or__ not implemented for " ++ typeRepr self ++ " and " ++ typeRepr other))

/-- Embedding of `BitType.__xor__`. -/
def BitType.xor_op (self other : Operand) : Except PyError ExprVal :=
  if isinstanceTC other .BitType then BitType.upcast self other .xorx
  else if isIntLiteral other then do
    let vc ← var_clsAttr self
    pure ⟨.xori, [self, other], some vc⟩
  else .error (.exception
    ("__xor__ not implemented for " ++ typeRepr self ++ " and " ++ typeRepr other))

/-- Embedding of `BitType.__lshift__`: no literal arm at all. -/
def BitType.lshift_op (self other : Operand) : Except PyError ExprVal :=
  if isinstanceTC other .BitType then do
    let vc ← var_clsAttr self
    pure ⟨.slwx, [self, other], some vc⟩
  else .error (.exception
    ("__lshift__ not implemented for " ++ typeRepr self ++ " and " ++ typeRepr other))

/-- Embedding of `BitType.__rshift__`. -/
def BitType.rshift_op (self other : Operand) : Except PyError ExprVal :=
  if isinstanceTC other .BitType then do
    let vc ← var_clsAttr self
    pure ⟨.srwx, [self, other], some vc⟩
  else .error (.exception
    ("__rshift__ not implemented for " ++ typeRepr self ++ " and " ++ typeRepr other))

/-- Embedding of `UnsignedWordType.__div__` (`ppc_types.py` lines 149-153).
The fallback is the source's `raise NotImplemented`, which raises a
`TypeError` (NotImplemented is not an exception class) carrying no message
about the operator or the operand types. -/
def UnsignedWordType.div_op (self other : Operand) : Except PyError ExprVal :=
  if isinstanceTC other .SignedWordType then do
    let ec ← expr_clsAttr self
    pure ⟨.divwux, [self, other], some ec⟩
  else .error .typeErrorRaiseNonException

/-- Embedding of `SignedWordType.__sub__` (`ppc_types.py` lines 182-186):
the source returns `self.expr_cls(ppc.subfx, other, self)`, swapping the
operand order, and its fallback message (a copy-paste slip in the source)
names `__add__` rather than `__sub__`. -/
def SignedWordType.sub_op (self other : Operand) : Except PyError ExprVal :=
  if isinstanceTC other .SignedWordType then do
    let ec ← expr_clsAttr self
    pure ⟨.subfx, [other, self], some ec⟩
  else .error (.exception
    ("__add__ not implemented for " ++ typeRepr self ++ " and " ++ typeRepr other))

/-- C5: code-bug evidence, evaluating the offending operators.  The claim
says every unsupported operand combination raises a condition whose
message names the operator and both operand types, and singles out the
unsigned-word divide.  The source's `UnsignedWordType.__div__` fallback is
`raise NotImplemented`, which produces a `TypeError` with no such message
(first conjunct, for an unsigned-word RHS, which is not a
`SignedWordType` instance).  Additionally, `SignedWordType.__sub__`'s
fallback message names `__add__`, not the invoked operator (second
conjunct), while `BitType.__lshift__` on a host-int literal does raise the
advertised message (third conjunct). -/
theorem C5_unsupported_combination_messages :
    UnsignedWordType.div_op (.typed .UnsignedWordType .var)
        (.typed .UnsignedWordType .var)
      = .error PyError.typeErrorRaiseNonException
    ∧ SignedWordType.sub_op (.typed .SignedWordType .var) (.intLit 1)
      = .error (.exception
          "__add__ not implemented for <class 'SignedWord'> and <type 'int'>")
    ∧ BitType.lshift_op (.typed .BitType .var) (.intLit 3)
      = .error (.exception
          "__lshift__ not implemented for <class 'Bits'> and <type 'int'>") :=
  ⟨rfl, rfl, rfl⟩

/-- C8: confirmed.  For every pair of signed-word operands (Variables or
Expressions), `a - b` selects the register-register subtract-from template
`subfx` with the operand order swapped to `(b, a)`, and the result class
is the caller's own computed-value (Expression) class. -/
theorem C8_signed_sub_swaps_operands (r₁ r₂ : Role) :
    SignedWordType.sub_op (.typed .SignedWordType r₁) (.typed .SignedWordType r₂)
      = .ok ⟨.subfx,
             [.typed .SignedWordType r₂, .typed .SignedWordType r₁],
             some (.exprCls .SignedWordType)⟩ := rfl

/-- C9: confirmed.  For operands of the two unrelated sibling kinds of the
generic-bits hierarchy (an unsigned-word value and a signed-word value, in
either order and in either Variable/Expression role), the bitwise AND, OR
and XOR operators do not raise: `_most_specific` returns the unset default
`None`, and the operator returns a computed value whose forced result
class is `none` rather than any registered class. -/
theorem C9_sibling_bitops_force_none (r₁ r₂ : Role) :
    BitType.and_op (.typed .UnsignedWordType r₁) (.typed .SignedWordType r₂)
      = .ok ⟨.andx, [.typed .UnsignedWordType r₁, .typed .SignedWordType r₂], none⟩
    ∧ BitType.and_op (.typed .SignedWordType r₁) (.typed .UnsignedWordType r₂)
      = .ok ⟨.andx, [.typed .SignedWordType r₁, .typed .UnsignedWordType r₂], none⟩
    ∧ BitType.or_op (.typed .UnsignedWordType r₁) (.typed .SignedWordType r₂)
      = .ok ⟨.orx, [.typed .UnsignedWordType r₁, .typed .SignedWordType r₂], none⟩
    ∧ BitType.or_op (.typed .SignedWordType r₁) (.typed .UnsignedWordType r₂)
      = .ok ⟨.orx, [.typed .SignedWordType r₁, .typed .UnsignedWordType r₂], none⟩
    ∧ BitType.xor_op (.typed .UnsignedWordType r₁) (.typed .SignedWordType r₂)
      = .ok ⟨.xorx, [.typed .UnsignedWordType r₁, .typed .SignedWordType r₂], none⟩
    ∧ BitType.xor_op (.typed .SignedWordType r₁) (.typed .UnsignedWordType r₂)
      = .ok ⟨.xorx, [.typed .SignedWordType r₁, .typed .UnsignedWordType r₂], none⟩ :=
  ⟨rfl, rfl, rfl, rfl, rfl, rfl⟩

/-- State of a `_float_function` object: intrinsic name plus the
single-precision and double-precision instruction templates. -/
structure FloatFn where
  name : String
  single_func : InstrTmpl
  double_func : InstrTmpl
deriving DecidableEq, Repr

/-- The operand-validation loop of `_float_function.__call__`:
`for op in operands[1:]: if op.var_cls != a.var_cls: raise ...`.
Attribute accesses happen per iteration, `op.var_cls` first; a raise
propagates at once. -/
def floatCheckLoop (a : Operand) : List Operand → Except PyError Unit
  | [] => .ok ()
  | op :: rest =>
    match var_clsAttr op with
    | .error e => .error e
    | .ok ov =>
      match var_clsAttr a with
      | .error e => .error e
      | .ok av =>
        if ov ≠ av then
          .error (.exception "Types for all operands must be the same")
        else floatCheckLoop a rest

/-- Embedding of `_float_function.__call__` (`ppc_types.py` lines
304-315): validate all positional operands against the first, dispatch on
the first operand's kind, and force the result class to the matching
Variable class (`SingleFloat` / `DoubleFloat`). -/
def FloatFn.call (f : FloatFn) (operands : List Operand) :
    Except PyError ExprVal :=
  match operands with
  | [] => .error .indexError
  | a :: rest =>
    match floatCheckLoop a rest with
    | .error e => .error e
    | .ok () =>
      if isinstanceTC a .SingleFloatType then
        .ok ⟨f.single_func, a :: rest, some (.varCls .SingleFloatType)⟩
      else if isinstanceTC a .DoubleFloatType then
        .ok ⟨f.double_func, a :: rest, some (.varCls .DoubleFloatType)⟩
      else
        .error (.exception (f.name ++ " is not implemeneted for " ++ typeRepr a))

/-- The five dispatcher instances defined at module scope. -/
def fmadd : FloatFn := ⟨"fmadd", .fmaddsx, .fmaddx⟩

def fmsub : FloatFn := ⟨"fmsub", .fmsubsx, .fmsubx⟩

def fnmadd : FloatFn := ⟨"fnmadd", .fnmaddsx, .fnmaddx⟩

def fnmsub : FloatFn := ⟨"fnmsub", .fnmsubsx, .fnmsubx⟩

def fsqrt : FloatFn := ⟨"fsqrt", .fsqrtsx, .fsqrtx⟩

/-- Specification of the validation loop on typed operands: it fails with
the fixed message exactly when some operand's kind differs from the first
operand's kind. -/
theorem floatCheckLoop_spec (ka : TypeCls) (ra : Role)
    (rest : List (TypeCls × Role)) :
    floatCheckLoop (.typed ka ra) (rest.map (fun p => Operand.typed p.1 p.2))
      = (if rest.any (fun p => p.1 ≠ ka) then
           .error (.exception "Types for all operands must be the same")
         else .ok ()) := by
  induction rest with
  | nil => simp [floatCheckLoop]
  | cons p rest ih =>
    obtain ⟨pk, pr⟩ := p
    by_cases h : pk = ka
    · subst h
      simp [floatCheckLoop, var_clsAttr, ih]
      rw [show (decide ¬pk = pk) = false from by simp, Bool.false_or]
    · simp [floatCheckLoop, var_clsAttr, h, ih]

/-- C4: theorem for the amended claim.  For every dispatcher instance and
every nonempty list of typed operands: if any operand's concrete kind
differs from the first operand's kind the call raises the TypeMismatch
condition with the fixed message `'Types for all operands must be the
same'` (which does not name the offending operand); otherwise it selects
the single-precision template when the operands are single-precision and
the double-precision template when double-precision, forcing the result
class to the operands' own Variable class, and raises the
UnsupportedOperation condition naming the intrinsic and the operand type
for any other kind. -/
theorem C4_float_dispatcher (f : FloatFn) (ka : TypeCls) (ra : Role)
    (rest : List (TypeCls × Role)) :
    FloatFn.call f (Operand.typed ka ra :: rest.map (fun p => Operand.typed p.1 p.2))
      = (if rest.any (fun p => p.1 ≠ ka) then
           .error (.exception "Types for all operands must be the same")
         else if ka = .SingleFloatType then
           .ok ⟨f.single_func,
                Operand.typed ka ra :: rest.map (fun p => Operand.typed p.1 p.2),
                some (.varCls .SingleFloatType)⟩
         else if ka = .DoubleFloatType then
           .ok ⟨f.double_func,
                Operand.typed ka ra :: rest.map (fun p => Operand.typed p.1 p.2),
                some (.varCls .DoubleFloatType)⟩
         else
           .error (.exception
             (f.name ++ " is not implemeneted for " ++ typeRepr (.typed ka ra)))) := by
  have hloop := floatCheckLoop_spec ka ra rest
  simp only [FloatFn.call]
  rw [hloop]
  by_cases hm : rest.any (fun p => p.1 ≠ ka)
  · rw [if_pos hm, if_pos hm]
  · rw [if_neg hm, if_neg hm]
    cases ka <;> rfl

/-- C4: counterexample to the claim as stated.  Calling `fmadd` with a
single-precision first operand and a double-precision offending second
operand raises the fixed message `'Types for all operands must be the
same'` — the identical message to the one raised when the offending
operand is instead single-precision, so the message cannot be naming the
offending operand; moreover the message contains no 'D' and no 'F'
character, hence no rendering of either operand's class (every registered
class rendering contains one of those). -/
theorem C4_mismatch_message_names_no_operand :
    FloatFn.call fmadd
        [.typed .SingleFloatType .var, .typed .DoubleFloatType .var]
      = .error (.exception "Types for all operands must be the same")
    ∧ FloatFn.call fmadd
        [.typed .DoubleFloatType .var, .typed .SingleFloatType .var]
      = .error (.exception "Types for all operands must be the same")
    ∧ "Types for all operands must be the same".data.contains 'D' = false
    ∧ "Types for all operands must be the same".data.contains 'F' = false := by
  refine ⟨rfl, rfl, ?_, ?_⟩ <;> decide

/-- Constant-pool entries: the `array.array('f', ...)` (32-bit) and
`array.array('d', ...)` (64-bit) buffers added via `add_storage`.  The
carried rational is the host float value whose bit pattern the buffer
holds at the indicated native width. -/
inductive StorageEntry where
  | f32 (v : Rat)
  | f64 (v : Rat)
deriving DecidableEq, Repr

/-- State of the active instruction stream and its register allocator:
emitted instructions in order, the constant-pool entries each paired with
the host address `buffer_info()[0]` reports for it, the allocator's
free-register list, and an oracle for the next host buffer address. -/
structure CodeState where
  instrs : List Instr
  storages : List (StorageEntry × Int)
  freeRegs : List Nat
  nextAddr : Int
deriving DecidableEq, Repr

/-- The external collaborator calls inside float literal materialization
that may raise (storage registration, the nested `Bits` address
materialization, the load emission).  The source has no try/finally, so a
raise propagates immediately out of `_set_literal_value`. -/
inductive MatStep where
  | addStorage
  | emitAddr
  | emitLoad
deriving DecidableEq, Repr

/-- Embedding of `SingleFloatType._set_literal_value(self, value)`
(`ppc_types.py` lines 229-238).  The `value` parameter is accepted but
never read: the buffer holds `float(self.value)` (identity on the stored
host float, modelled by `selfValue`).  Control flow is the source's
straight line: add the 32-bit constant-pool entry, acquire a scratch
register, materialize the buffer address into it (the nested
`Bits(storage.buffer_info()[0], reg = r_storage)` construction, which
emits via `BitType._set_literal_value`), emit `lfs(self.reg, addr.reg,
0)`, and only then release the scratch register.  `failAt` injects a
raise at the named external call; there is no handler, so the raise
propagates with the state as it stands. -/
def SingleFloatType.set_literal_value (failAt : Option MatStep)
    (selfValue : Rat) (selfReg : Nat) (value : Rat) (st : CodeState) :
    Except PyError Unit × CodeState :=
  if failAt = some .addStorage then
    (Except.error (PyError.exception "add_storage failed"), st)
  else
    let addr := st.nextAddr
    let st := { st with storages := st.storages ++ [(StorageEntry.f32 selfValue, addr)],
                        nextAddr := st.nextAddr + 4 }
    match st.freeRegs with
    | [] => (Except.error (PyError.exception "acquire_register failed"), st)
    | r :: rest =>
      let st := { st with freeRegs := rest }
      if failAt = some .emitAddr then
        (Except.error (PyError.exception "emit failed"), st)
      else
        let st := { st with instrs := st.instrs ++ BitType.set_literal_value r addr }
        if failAt = some .emitLoad then
          (Except.error (PyError.exception "emit failed"), st)
        else
          let st := { st with instrs := st.instrs ++ [Instr.lfs selfReg r 0] }
          (Except.ok (), { st with freeRegs := r :: st.freeRegs })

/-- Embedding of `DoubleFloatType._set_literal_value(self, value)`
(`ppc_types.py` lines 276-285): same sequence with a 64-bit entry and
`lfd`. -/
def DoubleFloatType.set_literal_value (failAt : Option MatStep)
    (selfValue : Rat) (selfReg : Nat) (value : Rat) (st : CodeState) :
    Except PyError Unit × CodeState :=
  if failAt = some .addStorage then
    (Except.error (PyError.exception "add_storage failed"), st)
  else
    let addr := st.nextAddr
    let st := { st with storages := st.storages ++ [(StorageEntry.f64 selfValue, addr)],
                        nextAddr := st.nextAddr + 8 }
    match st.freeRegs with
    | [] => (Except.error (PyError.exception "acquire_register failed"), st)
    | r :: rest =>
      let st := { st with freeRegs := rest }
      if failAt = some .emitAddr then
        (Except.error (PyError.exception "emit failed"), st)
      else
        let st := { st with instrs := st.instrs ++ BitType.set_literal_value r addr }
        if failAt = some .emitLoad then
          (Except.error (PyError.exception "emit failed"), st)
        else
          let st := { st with instrs := st.instrs ++ [Instr.lfd selfReg r 0] }
          (Except.ok (), { st with freeRegs := r :: st.freeRegs })

/-- C3: theorem for the amended claim.  For both float kinds: on the
normal (non-raising) path, and on raising paths that occur before the
scratch register is acquired (a failing `add_storage`), the allocator's
free-register list after the call equals the list before it; but on an
exit path where a collaborator call after the acquisition raises (the
nested address materialization, or the load emission), the call
propagates the raise without releasing, and the free list has lost the
acquired register. -/
theorem C3_scratch_register_scoping
    (selfValue : Rat) (selfReg : Nat) (value : Rat) (i : List Instr)
    (s : List (StorageEntry × Int)) (na : Int) (r : Nat) (rs : List Nat) :
    (SingleFloatType.set_literal_value none selfValue selfReg value
        ⟨i, s, r :: rs, na⟩).2.freeRegs = r :: rs
    ∧ (SingleFloatType.set_literal_value (some .addStorage) selfValue selfReg value
        ⟨i, s, r :: rs, na⟩).2.freeRegs = r :: rs
    ∧ (SingleFloatType.set_literal_value (some .emitAddr) selfValue selfReg value
        ⟨i, s, r :: rs, na⟩).1 = .error (.exception "emit failed")
    ∧ (SingleFloatType.set_literal_value (some .emitAddr) selfValue selfReg value
        ⟨i, s, r :: rs, na⟩).2.freeRegs = rs
    ∧ (SingleFloatType.set_literal_value (some .emitLoad) selfValue selfReg value
        ⟨i, s, r :: rs, na⟩).1 = .error (.exception "emit failed")
    ∧ (SingleFloatType.set_literal_value (some .emitLoad) selfValue selfReg value
        ⟨i, s, r :: rs, na⟩).2.freeRegs = rs
    ∧ (DoubleFloatType.set_literal_value none selfValue selfReg value
        ⟨i, s, r :: rs, na⟩).2.freeRegs = r :: rs
    ∧ (DoubleFloatType.set_literal_value (some .addStorage) selfValue selfReg value
        ⟨i, s, r :: rs, na⟩).2.freeRegs = r :: rs
    ∧ (DoubleFloatType.set_literal_value (some .emitAddr) selfValue selfReg value
        ⟨i, s, r :: rs, na⟩).2.freeRegs = rs
    ∧ (DoubleFloatType.set_literal_value (some .emitLoad) selfValue selfReg value
        ⟨i, s, r :: rs, na⟩).2.freeRegs = rs :=
  ⟨rfl, rfl, rfl, rfl, rfl, rfl, rfl, rfl, rfl, rfl⟩

/-- C3: counterexample to the claim as stated.  With one free register
and the load-emission collaborator call raising, single-precision literal
materialization propagates the raise and the allocator's free-register
count afterwards is 0, not the 1 it was before the call — the scratch
register is not released on this raising exit path. -/
theorem C3_leak_on_raising_path :
    (SingleFloatType.set_literal_value (some .emitLoad) 1 2 1
        ⟨[], [], [5], 100⟩).1 = .error (.exception "emit failed")
    ∧ (SingleFloatType.set_literal_value (some .emitLoad) 1 2 1
        ⟨[], [], [5], 100⟩).2.freeRegs.length = 0
    ∧ (CodeState.mk [] [] [5] 100).freeRegs.length = 1 :=
  ⟨rfl, rfl, rfl⟩

/-- C10: confirmed.  Both float literal-materialization routines ignore
their `value` parameter entirely (first two conjuncts: the result is
identical for any two arguments, on every path).  On the normal path the
constant-pool entry appended is the bit pattern of `float(self.value)` at
the kind's native width (32-bit `f32` for single, 64-bit `f64` for
double), recorded at the buffer address `na`, and the emitted load (`lfs`
resp. `lfd`, displacement 0) targets that entry: its base register is the
scratch register `r` into which the entry's address `na` was just
materialized. -/
theorem C10_float_literal_materializes_self_value
    (failAt : Option MatStep) (selfValue v₁ v₂ : Rat) (selfReg : Nat)
    (st : CodeState) (i : List Instr) (s : List (StorageEntry × Int))
    (r : Nat) (rs : List Nat) (na : Int) :
    SingleFloatType.set_literal_value failAt selfValue selfReg v₁ st
      = SingleFloatType.set_literal_value failAt selfValue selfReg v₂ st
    ∧ DoubleFloatType.set_literal_value failAt selfValue selfReg v₁ st
      = DoubleFloatType.set_literal_value failAt selfValue selfReg v₂ st
    ∧ SingleFloatType.set_literal_value none selfValue selfReg v₁
        ⟨i, s, r :: rs, na⟩
      = (.ok (), ⟨i ++ BitType.set_literal_value r na ++ [Instr.lfs selfReg r 0],
                  s ++ [(StorageEntry.f32 selfValue, na)], r :: rs, na + 4⟩)
    ∧ DoubleFloatType.set_literal_value none selfValue selfReg v₁
        ⟨i, s, r :: rs, na⟩
      = (.ok (), ⟨i ++ BitType.set_literal_value r na ++ [Instr.lfd selfReg r 0],
                  s ++ [(StorageEntry.f64 selfValue, na)], r :: rs, na + 8⟩) :=
  ⟨rfl, rfl, rfl, rfl⟩

/-- A class object created at runtime by `type(name, bases, dict)` inside
`make_user_type`: identified by a fresh allocation id, carrying the
`type_cls` back-reference installed in its class dict. -/
structure ClassObj where
  id : Nat
  type_cls : TypeCls
deriving DecidableEq, Repr

/-- Replace-or-append update of an association list, modelling attribute
assignment on a class object (overwrites silently) and assignment into the
`globals()` dict. -/
def setAssoc {α β : Type} [DecidableEq α] (l : List (α × β)) (k : α) (v : β) :
    List (α × β) :=
  if l.any (fun p => p.1 == k) then
    l.map (fun p => if p.1 == k then (k, v) else p)
  else l ++ [(k, v)]

/-- Registration state: the fresh-class-id counter, the `var_cls` and
`expr_cls` attributes installed on each type class, and the module
`globals()` entries installed for the Variable classes. -/
structure Registry where
  nextId : Nat
  varLinks : List (TypeCls × ClassObj)
  exprLinks : List (TypeCls × ClassObj)
  globalsMap : List (String × ClassObj)
deriving DecidableEq, Repr

/-- Embedding of `make_user_type(name, type_cls, g)` (`ppc_types.py` lines
331-368; the module initialization loop delegates to the identically
specified `util.make_user_type`).  It creates a fresh Variable class and a
fresh Expression class, each with `type_cls` set to the given kind,
overwrites `type_cls.var_cls` / `type_cls.expr_cls` with them, and binds
the Variable class under `name` in the global namespace.  The source
contains no registration check and no raise statement, so the embedding
always returns `ok`. -/
def make_user_type (name : String) (type_cls : TypeCls) (st : Registry) :
    Except PyError Registry :=
  let var_cls : ClassObj := ⟨st.nextId, type_cls⟩
  let expr_cls : ClassObj := ⟨st.nextId + 1, type_cls⟩
  .ok { nextId := st.nextId + 2,
        varLinks := setAssoc st.varLinks type_cls var_cls,
        exprLinks := setAssoc st.exprLinks type_cls expr_cls,
        globalsMap := setAssoc st.globalsMap name var_cls }

/-- The `_user_types` table (`ppc_types.py` lines 371-377). -/
def _user_types : List (String × TypeCls) :=
  [("Bits", .BitType),
   ("UnsignedWord", .UnsignedWordType),
   ("SignedWord", .SignedWordType),
   ("SingleFloat", .SingleFloatType),
   ("DoubleFloat", .DoubleFloatType)]

/-- The module-initialization loop
`for t in _user_types: util.make_user_type(*(t + (globals(),)))`, run from
an empty registration state. -/
def runUserTypeLoop : Except PyError Registry :=
  _user_types.foldlM (fun st p => make_user_type p.1 p.2 st) ⟨0, [], [], []⟩

/-- Check that `kind.var_cls.type_cls is kind` and
`kind.expr_cls.type_cls is kind` both hold in a registration state. -/
def crossLinked (st : Registry) (k : TypeCls) : Bool :=
  (match st.varLinks.lookup k with
   | some c => c.type_cls == k
   | none => false)
  && (match st.exprLinks.lookup k with
      | some c => c.type_cls == k
      | none => false)

/-- Helper: whether an embedded call completed without raising. -/
def exceptIsOk {ε α : Type} : Except ε α → Bool
  | .ok _ => true
  | .error _ => false

/-- Helper: the value an embedded call returned, when it did not raise. -/
def okValue {ε α : Type} : Except ε α → Option α
  | .ok a => some a
  | .error _ => none

/-- C6: theorem for the amended claim.  After the initialization loop,
every one of the five registered kinds is cross-linked
(`kind.var_cls.type_cls is kind` and `kind.expr_cls.type_cls is kind`),
each kind has exactly one Variable-class and one Expression-class entry,
and all ten created class objects are distinct (each class was created
exactly once).  However, re-invoking the factory for the already
registered `BitType` is not detected as an error: the call completes
without raising and silently replaces the kind's registered Variable
class with a fresh one. -/
theorem C6_factory_crosslinks_and_silent_reregistration :
    (okValue runUserTypeLoop).map (fun st =>
        [TypeCls.BitType, .UnsignedWordType, .SignedWordType,
         .SingleFloatType, .DoubleFloatType].all (crossLinked st)) = some true
    ∧ (okValue runUserTypeLoop).map (fun st => st.varLinks.length) = some 5
    ∧ (okValue runUserTypeLoop).map (fun st => st.exprLinks.length) = some 5
    ∧ (okValue runUserTypeLoop).map (fun st =>
        decide (((st.varLinks ++ st.exprLinks).map (fun p => p.2.id)).Nodup))
      = some true
    ∧ exceptIsOk (runUserTypeLoop.bind (make_user_type "Bits" .BitType)) = true
    ∧ ((okValue (runUserTypeLoop.bind (make_user_type "Bits" .BitType))).map
          (fun st => st.varLinks.lookup TypeCls.BitType)
        == (okValue runUserTypeLoop).map
          (fun st => st.varLinks.lookup TypeCls.BitType)) = false := by
  refine ⟨rfl, rfl, rfl, ?_, rfl, ?_⟩ <;> decide

/-- C6: counterexample to the claim as stated.  The claim says re-invoking
the factory for a kind that is already registered is an error; instead the
second invocation for `BitType` completes without raising (`ok`), and it
replaces the kind's registered Variable class (the class-object lookup
differs before and after), so the originally created classes do not stay
the kind's `var_cls`/`expr_cls` for the program's lifetime. -/
theorem C6_reregistration_not_an_error :
    exceptIsOk (runUserTypeLoop.bind (make_user_type "SignedWord" .SignedWordType))
      = true
    ∧ ((okValue (runUserTypeLoop.bind (make_user_type "SignedWord" .SignedWordType))).map
          (fun st => st.varLinks.lookup TypeCls.SignedWordType)
        == (okValue runUserTypeLoop).map
          (fun st => st.varLinks.lookup TypeCls.SignedWordType)) = false := by
  refine ⟨rfl, ?_⟩
  decide

/-- Configuration state of the framebuffer demo's `FBDraw` object
(`examples/fbdemo.py`): the two frame-buffer addresses and the byte
stride, each unset until the corresponding setter runs. -/
structure FBDraw where
  buffers : Option (Int × Int)
  stride : Option Int
deriving DecidableEq, Repr

/-- Embedding of `FBDraw.synthesize(self, code)` (`examples/fbdemo.py`
lines 22-52) with respect to the process-wide active-code slot (the slot
behind `get_active_code`/`set_active_code`, the same slot the
`PPCType.active_code` property delegates to; instruction streams are
identified by id).  The source first saves the old slot value and installs
`code`, then checks the required parameters, raising `'Please set
buffers'` / `'Please set stride'` without any restore; the body's
emissions go through external collaborator libraries and do not touch the
slot, and only the final line restores the saved value.  The result is the
call's outcome paired with the slot's value after the call. -/
def FBDraw.synthesize (self : FBDraw) (code : Nat) (active : Option Nat) :
    Except PyError Unit × Option Nat :=
  let old_code := active
  let active := some code
  if self.buffers.isNone then
    (Except.error (PyError.exception "Please set buffers"), active)
  else if self.stride.isNone then
    (Except.error (PyError.exception "Please set stride"), active)
  else
    (Except.ok (), old_code)

/-- C7: theorem for the amended claim.  `synthesize` saves the previous
active-code value and restores it on the successful exit path (first
conjunct); but on the ConfigurationMissing failure paths — buffers unset,
or stride unset — the raise happens after the new stream was installed and
before any restore, so the active-code slot is left holding the new
stream `code`, not the previous value (second and third conjuncts). -/
theorem C7_synthesize_restore_only_on_success
    (b : Int × Int) (sd : Int) (sOpt : Option Int) (code : Nat)
    (active : Option Nat) :
    FBDraw.synthesize ⟨some b, some sd⟩ code active = (.ok (), active)
    ∧ FBDraw.synthesize ⟨none, sOpt⟩ code active
      = (.error (.exception "Please set buffers"), some code)
    ∧ FBDraw.synthesize ⟨some b, none⟩ code active
      = (.error (.exception "Please set stride"), some code) :=
  ⟨rfl, rfl, rfl⟩

/-- C7: counterexample to the claim as stated.  With buffers unset, a
previous active stream 3 and a new stream 7, the call raises
ConfigurationMissing and leaves the active-code slot holding the newly
installed stream 7 — not the saved previous stream 3 as the claim
requires. -/
theorem C7_failure_path_leaves_new_stream :
    FBDraw.synthesize ⟨none, none⟩ 7 (some 3)
      = (.error (.exception "Please set buffers"), some 7)
    ∧ ((some 7 : Option Nat) == some 3) = false := by
  refine ⟨rfl, ?_⟩
  decide

end Corepy
